import Mathlib

set_option maxRecDepth 4000

/-!
Verification of the sandboxed bash-runner action (`runBashCommandSandboxed`).

The definitions below are a shallow embedding of the final revision of the
action's `run` handler: script cleaning, the NFS/SMB mount-option and
mount-command builders, the composed in-container script, the container
bootstrap command, the stdout/stderr demultiplexer, the timeout default and
the error-propagation behaviour of the surrounding try/catch.

Modelling conventions:
* JavaScript strings are Lean `String`s; an optional text property that is
  `undefined` is modelled as `""` (both are falsy in the source's truthiness
  tests, and the source only ever tests truthiness on them).
* The numeric `timeout` property is `Option Nat` (`none` = `undefined`).
* Byte streams (Docker multiplexed chunks) are `List Nat`; `chunk.toString()`
  followed by `.slice(8)` is modelled as dropping 8 bytes, which is exact for
  the single-byte code points the header and ASCII payloads consist of.
* The base64 encoding of the composed script is treated as an opaque string
  parameter of the bootstrap command; the encoding itself is not modelled.
-/

namespace BashRunner

/-! ### Script cleaning: `command.replace(/^#!.*\n/, '').trim()` -/
/-- Characters the JavaScript regex `.` does not match. -/
def jsDotExcluded (c : Char) : Bool :=
  c = '\n' || c = '\r' || c = '\u2028' || c = '\u2029'

/-- Scanner for the `.*\n` part of `/^#!.*\n/`: consumes characters matched
by `.` until the terminating `'\n'`; fails when a `.`-excluded character other
than `'\n'` is reached (the regex cannot match past it). Returns the remainder
of the string after the newline on success. -/
def shebangScan : List Char → Option (List Char)
  | [] => none
  | c :: cs => if c = '\n' then some cs else if jsDotExcluded c then none else shebangScan cs

/-- `command.replace(/^#!.*\n/, '')`: remove a leading `#!` directive line,
first match only, anchored at the start of the string. -/
def stripShebang (cmd : String) : String :=
  match cmd.data with
  | '#' :: '!' :: rest =>
    match shebangScan rest with
    | some remaining => ⟨remaining⟩
    | none => cmd
  | _ => cmd

/-- White-space characters removed by JavaScript's `String.prototype.trim`
(restricted to the ASCII ones; the further Unicode space characters it also
removes play no role in any claim). -/
def jsTrimChar (c : Char) : Bool :=
  c = ' ' || c = '\t' || c = '\n' || c = '\r' || c = '\x0b' || c = '\x0c'

/-- Remove leading and trailing white-space characters. -/
def trimList (l : List Char) : List Char :=
  ((l.dropWhile jsTrimChar).reverse.dropWhile jsTrimChar).reverse

/-- JavaScript `.trim()`. -/
def jsTrim (s : String) : String :=
  ⟨trimList s.data⟩

/-- `const cleanedCommand = command.replace(/^#!.*\n/, '').trim();` -/
def cleanedCommand (cmd : String) : String :=
  jsTrim (stripShebang cmd)

/-! ### Mount options and mount commands -/
/-- `const nfsOptions = mountOptions || 'rw,sync';` -/
def nfsOptions (mountOptions : String) : String :=
  if mountOptions = "" then "rw,sync" else mountOptions

/-- `let smbOptions = mountOptions || 'rw';` followed by the conditional
`username=`/`password=` appends (password only inside the username branch). -/
def smbOptions (mountOptions mountUsername mountPassword : String) : String :=
  let base := if mountOptions = "" then "rw" else mountOptions
  if mountUsername = "" then base
  else if mountPassword = "" then base ++ ",username=" ++ mountUsername
  else base ++ ",username=" ++ mountUsername ++ ",password=" ++ mountPassword

/-- `mount -t nfs -o ${nfsOptions} ${mountSource} ${mountPoint}` -/
def nfsMountCommand (mountOptions mountSource mountPoint : String) : String :=
  "mount -t nfs -o " ++ nfsOptions mountOptions ++ " " ++ mountSource ++ " " ++ mountPoint

/-- `mount -t cifs -o ${smbOptions} ${mountSource} ${mountPoint}` -/
def smbMountCommand (mountOptions mountUsername mountPassword mountSource mountPoint : String) : String :=
  "mount -t cifs -o " ++ smbOptions mountOptions mountUsername mountPassword ++ " " ++ mountSource ++ " " ++ mountPoint

/-! ### Install fragments (exact template literals from the source) -/
/-- First third of the `installPackages` template for `mountType === 'nfs'`
(the template is kept split so that facts about it stay within kernel
reduction limits; the full fragment is their concatenation below). -/
def nfsInstall1 : String :=
  "\n# Install NFS utilities as root\nexport DEBIAN_FRONTEND=noninteractive\nif command -v apt-get &>/dev/null; then\n  timeout 30 apt-get update -qq >/dev/null 2>&1 || echo \"[Warning] apt-get update failed\" >&2"

/-- Second third of the NFS `installPackages` template. -/
def nfsInstall2 : String :=
  "\n  timeout 30 apt-get install -y --no-install-recommends nfs-common >/dev/null 2>&1 || echo \"[Warning] nfs-common installation failed\" >&2\nelif command -v apk &>/dev/null; then\n  apk add --no-cache nfs-utils >/dev/null 2>&1 || echo \"[Warning] nfs-utils installation failed\" >&2"

/-- Last third of the NFS `installPackages` template. -/
def nfsInstall3 : String :=
  "\nelif command -v yum &>/dev/null; then\n  yum install -y nfs-utils >/dev/null 2>&1 || echo \"[Warning] nfs-utils installation failed\" >&2\nfi"

/-- The `installPackages` template for `mountType === 'nfs'`. -/
def nfsInstallPackages : String :=
  nfsInstall1 ++ nfsInstall2 ++ nfsInstall3

/-- First third of the `installPackages` template for `mountType === 'smb'`. -/
def smbInstall1 : String :=
  "\n# Install CIFS utilities as root\nexport DEBIAN_FRONTEND=noninteractive\nif command -v apt-get &>/dev/null; then\n  timeout 30 apt-get update -qq >/dev/null 2>&1 || echo \"[Warning] apt-get update failed\" >&2"

/-- Second third of the CIFS `installPackages` template. -/
def smbInstall2 : String :=
  "\n  timeout 30 apt-get install -y --no-install-recommends cifs-utils >/dev/null 2>&1 || echo \"[Warning] cifs-utils installation failed\" >&2\nelif command -v apk &>/dev/null; then\n  apk add --no-cache cifs-utils >/dev/null 2>&1 || echo \"[Warning] cifs-utils installation failed\" >&2"

/-- Last third of the CIFS `installPackages` template. -/
def smbInstall3 : String :=
  "\nelif command -v yum &>/dev/null; then\n  yum install -y cifs-utils >/dev/null 2>&1 || echo \"[Warning] cifs-utils installation failed\" >&2\nfi"

/-- The `installPackages` template for `mountType === 'smb'`. -/
def smbInstallPackages : String :=
  smbInstall1 ++ smbInstall2 ++ smbInstall3

/-! ### Request properties -/
/-- The destructured `context.propsValue` of the sandboxed action. -/
structure RunProps where
  command : String
  mountType : String
  mountSource : String
  mountPoint : String
  mountOptions : String
  mountUsername : String
  mountPassword : String
  dockerImage : String
  timeout : Option Nat
  runAsRoot : Bool
deriving DecidableEq

/-- `const imageName = dockerImage || 'ubuntu:latest';` -/
def imageNameOf (p : RunProps) : String :=
  if p.dockerImage = "" then "ubuntu:latest" else p.dockerImage

/-- `let installPackages = ''` then the `if (mountType === 'nfs') ... else if
(mountType === 'smb') ...` assignments. -/
def installPackagesOf (p : RunProps) : String :=
  if p.mountType = "nfs" then nfsInstallPackages
  else if p.mountType = "smb" then smbInstallPackages
  else ""

/-- `let mountCommand = ''` then the per-type assignment. -/
def mountCommandOf (p : RunProps) : String :=
  if p.mountType = "nfs" then nfsMountCommand p.mountOptions p.mountSource p.mountPoint
  else if p.mountType = "smb" then
    smbMountCommand p.mountOptions p.mountUsername p.mountPassword p.mountSource p.mountPoint
  else ""

/-! ### Composed script (exact template literals from the source) -/
/-- Ternary-true block of the mount script and of the no-mount script
(the two literals in the source are identical). -/
def rootBlock (cleaned : String) : String :=
  "\n# Execute command as root\ncd /workspace\n" ++ cleaned ++ "\n"

/-- The privilege transition both ternary-false blocks share: the cleaned user
command is embedded in a heredoc fed to `su - activepieces`. -/
def suCore (cleaned : String) : String :=
  "su - activepieces << 'EOF'\ncd /workspace\n" ++ cleaned ++ "\nEOF\n"

/-- Ternary-false block of the mount script. -/
def suBlockMount (cleaned : String) : String :=
  "\n# Switch to non-root user for command execution\n" ++ suCore cleaned

/-- Ternary-false block of the no-mount script. -/
def suBlockNoMount (cleaned : String) : String :=
  "\n# Run command as non-root user\n" ++ suCore cleaned

/-- Fixed leading text of the mount-branch script. -/
def litScriptHeader : String := "#!/bin/bash\n# Script runs as root initially\nset +e\n\n"

/-- Text between the install fragment and the first `mountPoint` interpolation. -/
def litMkdir : String := "\n\n# Create mount point as root\nmkdir -p "

/-- Text between the two `mountPoint` interpolations of the mkdir line. -/
def litWarn : String := " 2>/dev/null || echo \"[Warning] Could not create mount point "

/-- Text between the mkdir line and the `mountCommand` interpolation. -/
def litIf : String := "\" >&2\n\n# Mount network drive as root\nif "

/-- Text between the `mountCommand` interpolation and the user block. -/
def litThen : String := "; then\n  :  # Mount successful, no output\nelse\n  MOUNT_EXIT=$?\n  echo \"[Error] Mount failed with exit code: $MOUNT_EXIT\" >&2\nfi\n\n"

/-- Unmount comment line after the user block. -/
def litUnmountPre : String := "\n\n# Unmount as root (after user command completes)\n"

/-- The `umount ` invocation prefix. -/
def litUmount : String := "umount "

/-- Trailing text of the mount-branch script. -/
def litScriptTail : String := " 2>/dev/null || true\n"

/-- The mount-branch `fullScript` template. -/
def mountScript (p : RunProps) : String :=
  litScriptHeader ++ installPackagesOf p ++ litMkdir ++ p.mountPoint ++ litWarn ++ p.mountPoint ++
    litIf ++ mountCommandOf p ++ litThen ++
    (if p.runAsRoot then rootBlock (cleanedCommand p.command)
     else suBlockMount (cleanedCommand p.command)) ++
    litUnmountPre ++ litUmount ++ p.mountPoint ++ litScriptTail

/-- The no-mount `fullScript` template. -/
def noMountScript (p : RunProps) : String :=
  "#!/bin/bash\n# No mount configuration\nset +e\n\n" ++
    (if p.runAsRoot then rootBlock (cleanedCommand p.command)
     else suBlockNoMount (cleanedCommand p.command)) ++ "\n"

/-- `if (mountType && mountSource) { ... } else { ... }` -/
def fullScript (p : RunProps) : String :=
  if p.mountType ≠ "" ∧ p.mountSource ≠ "" then mountScript p else noMountScript p

/-! ### Container bootstrap command (the `Cmd: ['bash', '-c', ...]` template) -/
/-- Bootstrap text before the `${encodedScript}` interpolation, part 1. -/
def containerCmdPre1 : String :=
  "\n          # Running as root initially\n          export DEBIAN_FRONTEND=noninteractive\n          \n          # Install necessary packages if needed\n          if command -v apt-get &>/dev/null; then\n            apt-get update -qq >/dev/null 2>&1 || echo \"Warning: apt-get update failed\" >&2"

/-- Bootstrap text part 2. -/
def containerCmdPre2 : String :=
  "\n            # Only install coreutils if timeout command is missing\n            if ! command -v timeout &>/dev/null; then\n              apt-get install -y --no-install-recommends coreutils >/dev/null 2>&1 || echo \"Warning: coreutils installation failed\" >&2\n            fi\n          fi\n          "

/-- Bootstrap text part 3. -/
def containerCmdPre3 : String :=
  "\n          # Create non-root user (without sudo privileges)\n          if ! id activepieces &>/dev/null; then\n            groupadd -g 1001 activepieces 2>/dev/null || true\n            useradd -u 1001 -g 1001 -m -s /bin/bash activepieces 2>/dev/null || \x7b"

/-- Bootstrap text part 4. -/
def containerCmdPre4 : String :=
  "\n              # If UID 1001 is taken, find next available UID\n              for uid in \x7b1002..1010\x7d; do\n                if useradd -u $uid -g activepieces -m -s /bin/bash activepieces 2>/dev/null; then\n                  break\n                fi\n              done\n            \x7d\n          fi\n          "

/-- Bootstrap text part 5. -/
def containerCmdPre5 : String :=
  "\n          # Create workspace directory with proper permissions\n          mkdir -p /workspace\n          chown activepieces:activepieces /workspace\n          \n          # Decode the user script\n          echo '"

/-- Bootstrap text before the `${encodedScript}` interpolation. -/
def containerCmdPre : String :=
  containerCmdPre1 ++ containerCmdPre2 ++ containerCmdPre3 ++ containerCmdPre4 ++ containerCmdPre5

/-- Bootstrap text after the `${encodedScript}` interpolation. -/
def containerCmdPost : String :=
  "' | base64 -d > /tmp/user_script.sh\n          chmod +x /tmp/user_script.sh\n          chown activepieces:activepieces /tmp/user_script.sh\n          \n          # Execute the script (mount operations will be handled inside)\n          bash /tmp/user_script.sh\n        "

/-- The full bootstrap command, with the base64-encoded composed script as an
opaque parameter. -/
def containerCmd (encodedScript : String) : String :=
  containerCmdPre ++ encodedScript ++ containerCmdPost

/-! ### Output demultiplexer

`stream.on('data', chunk => ...)`: per chunk, byte 0 selects the stream;
tag 1 appends `data.slice(8)` to stdout, tag 2 appends it to stderr, anything
else appends the whole chunk to stdout. -/
/-- One `data` event of the attach stream: `chunk[0] === 1` appends the
post-header bytes to stdout, `chunk[0] === 2` appends them to stderr, and any
other first byte (or an empty chunk, whose `chunk[0]` is `undefined`) appends
the whole chunk to stdout. -/
def demuxChunk (acc : List Nat × List Nat) (chunk : List Nat) : List Nat × List Nat :=
  if chunk.head? = some 1 then (acc.1 ++ chunk.drop 8, acc.2)
  else if chunk.head? = some 2 then (acc.1, acc.2 ++ chunk.drop 8)
  else (acc.1 ++ chunk, acc.2)

/-- Accumulated stdout/stderr over the whole sequence of `data` events. -/
def demux (chunks : List (List Nat)) : List Nat × List Nat :=
  chunks.foldl demuxChunk ([], [])

/-- A Docker stream frame: tag byte, then three zero bytes, then a 32-bit
big-endian payload length, then the payload. -/
structure DockerFrame where
  tag : Nat
  payload : List Nat
deriving DecidableEq

/-- Big-endian 32-bit length header. -/
def be32 (n : Nat) : List Nat :=
  [n / 2 ^ 24 % 256, n / 2 ^ 16 % 256, n / 2 ^ 8 % 256, n % 256]

/-- Wire encoding of one frame. -/
def encodeFrame (f : DockerFrame) : List Nat :=
  f.tag :: 0 :: 0 :: 0 :: (be32 f.payload.length ++ f.payload)

/-- Concatenation, in stream order, of the payloads of the frames with the
given tag. -/
def payloadsOf (t : Nat) (fs : List DockerFrame) : List Nat :=
  fs.foldr (fun f acc => if f.tag = t then f.payload ++ acc else acc) []

/-! ### Timeout, result shape and error propagation -/
/-- `const executionTimeout = (timeout || 30) * 1000;` (milliseconds). -/
def executionTimeoutMs (timeout : Option Nat) : Nat :=
  (match timeout with
   | none => 30
   | some 0 => 30
   | some t => t) * 1000

/-- An error thrown by a dockerode call (`message`, optional `statusCode`). -/
structure JsError where
  message : String
  statusCode : Option Nat
deriving DecidableEq

/-- The object returned by the action on the non-throwing path. The source
returns `{ success: true, output, stdout, stderr, executionTime }`; it has no
`exitCode` and no `timedOut` key, so reading either yields `undefined`,
modelled as the `none` value of the two trailing fields. The `executionTime`
timestamp is not modelled. -/
structure ExecResult where
  success : Bool
  output : List Nat
  stdout : List Nat
  stderr : List Nat
  exitCode : Option Int
  timedOut : Option Bool
deriving DecidableEq

/-- Outcome of the external Docker control plane for one invocation: which
stage (if any) rejects, the `data` chunks delivered before the stream ends,
how long the container would naturally run, and its exit status. -/
structure DockerEnv where
  imageLocal : Bool
  pullError : Option JsError
  createError : Option JsError
  attachError : Option JsError
  startError : Option JsError
  waitError : Option JsError
  chunks : List (List Nat)
  containerRuntimeMs : Nat
  waitStatusCode : Nat
deriving DecidableEq

/-- The body of the `try` block: image resolution (inspect miss followed by a
pull that may reject), then create/attach/start/wait in order — the first
rejection aborts — and otherwise the result object, built from the
demultiplexed chunks. `container.wait()`'s resolution value (the exit status)
is discarded by the source, so `waitStatusCode` does not appear in the result. -/
def tryRun (env : DockerEnv) : Except JsError ExecResult :=
  match (if env.imageLocal then none else env.pullError),
      env.createError, env.attachError, env.startError, env.waitError with
  | some e, _, _, _, _ => Except.error e
  | none, some e, _, _, _ => Except.error e
  | none, none, some e, _, _ => Except.error e
  | none, none, none, some e, _ => Except.error e
  | none, none, none, none, some e => Except.error e
  | none, none, none, none, none =>
    Except.ok ⟨true, (demux env.chunks).1, (demux env.chunks).1, (demux env.chunks).2, none, none⟩

/-- Substring test used for `error.message?.includes('connect ENOENT')`. -/
def messageContains (e : JsError) (pat : String) : Bool :=
  decide (pat.data <:+: e.message.data)

/-- The error thrown for `connect ENOENT`. -/
def socketNotFoundError : JsError :=
  ⟨"Docker socket not found. Please ensure Docker is running and the socket is mounted with -v /var/run/docker.sock:/var/run/docker.sock", none⟩

/-- The error thrown for `statusCode === 404`. -/
def imageNotFoundError (imageName : String) : JsError :=
  ⟨"Docker image " ++ imageName ++ " not found and could not be pulled. Please check your internet connection.", none⟩

/-- The `catch` block: every caught error is re-thrown — socket-ENOENT and 404
errors with a friendlier message, everything else verbatim. -/
def mapCaughtError (imageName : String) (e : JsError) : JsError :=
  if messageContains e "connect ENOENT" then socketNotFoundError
  else if e.statusCode = some 404 then imageNotFoundError imageName
  else e

/-- The whole `run` handler: the try body, with caught errors re-thrown
through the catch mapping. -/
def runModel (p : RunProps) (env : DockerEnv) : Except JsError ExecResult :=
  match tryRun env with
  | Except.ok r => Except.ok r
  | Except.error e => Except.error (mapCaughtError (imageNameOf p) e)

/-- Whether the supervision timer fires (and `container.kill()` is issued)
before the container finishes on its own; `clearTimeout` cancels it otherwise. -/
def killIssued (p : RunProps) (env : DockerEnv) : Bool :=
  decide (executionTimeoutMs p.timeout ≤ env.containerRuntimeMs)

/-! ### Substring reasoning for generated text

The privilege-separation analysis needs that an all-letter pattern (such as
`sudoers` or `NOPASSWD`) cannot occur in a concatenation of pieces when it
occurs in no piece, provided the junctions between pieces carry non-letter
characters. -/
/-- The list starts with a non-letter character. -/
def headNonAlpha (s : List Char) : Prop :=
  ∃ f t, s = f :: t ∧ f.isAlpha = false

/-- The list ends with a non-letter character. -/
def lastNonAlpha (s : List Char) : Prop :=
  ∃ i e, s = i ++ [e] ∧ e.isAlpha = false

/-- Boolean check that a nonempty list starts and ends with non-letters. -/
def fencedCheck (s : List Char) : Bool :=
  if h : s = [] then false
  else !(s.head h).isAlpha && !(s.getLast h).isAlpha

/-- Concatenation of alternating fixed and variable pieces followed by a tail. -/
def glueChain (pairs : List (List Char × List Char)) (tl : List Char) : List Char :=
  match pairs with
  | [] => tl
  | pr :: rest => pr.1 ++ pr.2 ++ glueChain rest tl

/-- Boolean check that a list starts with a non-letter. -/
def headCheck (s : List Char) : Bool :=
  match s with
  | [] => false
  | f :: _ => !f.isAlpha

/-- Boolean check that a list ends with a non-letter. -/
def lastCheck (s : List Char) : Bool :=
  match s.getLast? with
  | some e => !e.isAlpha
  | none => false

/-! ### Fixed segments of the generated text

The pieces below carve the composed-script and bootstrap templates at the
variable interpolation points; each is a concatenation of the literals the
templates are built from, grouped so that every piece is short and begins and
ends with a non-letter character where the gluing lemmas need it. -/
/-- `nfsInstall3` together with the following mkdir text. -/
def segInstallTailNfs : String := nfsInstall3 ++ litMkdir

/-- `smbInstall3` together with the following mkdir text. -/
def segInstallTailSmb : String := smbInstall3 ++ litMkdir

/-- The `if ` text together with the fixed head of the NFS mount command. -/
def segIfNfs : String := litIf ++ "mount -t nfs -o "

/-- The `if ` text together with the fixed head of the CIFS mount command. -/
def segIfSmb : String := litIf ++ "mount -t cifs -o "

/-- The post-mount text together with the fixed head of the non-root user
block of the mount script. -/
def segThenSu : String :=
  litThen ++ "\n# Switch to non-root user for command execution\n" ++
    "su - activepieces << 'EOF'\ncd /workspace\n"

/-- The heredoc terminator together with the unmount invocation prefix. -/
def segSuUnmount : String := "\nEOF\n" ++ litUnmountPre ++ litUmount

/-- Fixed text of the no-mount script before the embedded user command
(non-root branch). -/
def segNoMountPre : String :=
  "#!/bin/bash\n# No mount configuration\nset +e\n\n" ++
    "\n# Run command as non-root user\n" ++ "su - activepieces << 'EOF'\ncd /workspace\n"

/-- Fixed text of the no-mount script after the embedded user command
(non-root branch). -/
def segNoMountTail : String := "\nEOF\n" ++ "\n"

/-- Every fixed piece of generated text that the privilege-separation analysis
inspects. -/
def fixedPieces : List (List Char) :=
  [litScriptHeader.data, nfsInstall1.data, nfsInstall2.data, segInstallTailNfs.data,
   smbInstall1.data, smbInstall2.data, segInstallTailSmb.data, litMkdir.data, litWarn.data,
   segIfNfs.data, segIfSmb.data, litIf.data, (" " : String).data,
   (",username=" : String).data, (",password=" : String).data,
   ("rw,sync" : String).data, ("rw" : String).data,
   segThenSu.data, segSuUnmount.data, litScriptTail.data,
   segNoMountPre.data, segNoMountTail.data,
   containerCmdPre1.data, containerCmdPre2.data, containerCmdPre3.data,
   containerCmdPre4.data, containerCmdPre5.data, containerCmdPost.data]

/-- A text free of sudoers grants: it contains neither the token `sudoers`
(needed to append to `/etc/sudoers`) nor the token `NOPASSWD` (needed for a
passwordless grant line). -/
def grantFree (s : String) : Prop :=
  ¬ ("sudoers" : String).data <:+: s.data ∧ ¬ ("NOPASSWD" : String).data <:+: s.data

instance (s : String) : Decidable (grantFree s) :=
  inferInstanceAs (Decidable (¬ ("sudoers" : String).data <:+: s.data ∧
    ¬ ("NOPASSWD" : String).data <:+: s.data))

/-- Example dropPrivileges request used to witness the analysis. -/
def c4Props : RunProps :=
  ⟨"#!/bin/bash\necho hi", "smb", "//server/share", "/mnt/network", "", "user1", "pw1", "", none, false⟩

deriving instance DecidableEq for Except

def pEx1 : RunProps := ⟨"exit 3", "", "", "/mnt/network", "", "", "", "", none, false⟩

def envEx1 : DockerEnv := ⟨true, none, none, none, none, none, [], 0, 3⟩

def pEx2 : RunProps := ⟨"sleep 60", "", "", "/mnt/network", "", "", "", "", some 1, false⟩

def envEx2 : DockerEnv :=
  ⟨true, none, none, none, none, none, [[1, 0, 0, 0, 0, 0, 0, 2, 104, 105]], 5000, 137⟩

def pEx5 : RunProps := ⟨"echo hi", "", "", "/mnt/network", "", "", "", "", none, false⟩

def envEx5 : DockerEnv := ⟨true, none, some ⟨"boom", none⟩, none, none, none, [], 0, 0⟩

def pEx10 : RunProps := ⟨"echo hi", "", "", "/mnt/network", "", "", "", "", some 0, false⟩

def envEx10 : DockerEnv := ⟨true, none, none, none, none, none, [], 30000, 0⟩

/-- The `username=`/`password=` text the smb branch appends to the base options. -/
def credSuffix (u pw : String) : String :=
  if u = "" then "" else ",username=" ++ u ++ (if pw = "" then "" else ",password=" ++ pw)

def pEx8nfs : RunProps := ⟨"echo hi", "nfs", "srv:/data", "/mnt/network", "", "", "", "", none, false⟩

def pEx8smb : RunProps := ⟨"echo hi", "smb", "//srv/share", "/mnt/network", "", "", "pw", "", none, false⟩

/-- Example NFS request whose user script exits non-zero, used by C3. -/
def pEx3 : RunProps :=
  ⟨"#!/bin/bash\nexit 3", "nfs", "server:/data", "/mnt/network", "", "", "", "", none, false⟩

theorem headNonAlpha_of_fenced (s : List Char) (hs : fencedCheck s = true) :
    headNonAlpha s := by
  cases s with
  | nil => simp [fencedCheck] at hs
  | cons f t =>
    refine ⟨f, t, rfl, ?_⟩
    unfold fencedCheck at hs
    rw [dif_neg (List.cons_ne_nil f t)] at hs
    have h1 := (Bool.and_eq_true _ _).mp hs
    simpa using h1.1

theorem lastNonAlpha_of_fenced (s : List Char) (hs : fencedCheck s = true) :
    lastNonAlpha s := by
  have hne : s ≠ [] := by
    intro h
    rw [h] at hs
    simp [fencedCheck] at hs
  refine ⟨s.dropLast, s.getLast hne, (List.dropLast_concat_getLast hne).symm, ?_⟩
  unfold fencedCheck at hs
  rw [dif_neg hne] at hs
  have h2 := (Bool.and_eq_true _ _).mp hs
  simpa using h2.2

/-- An all-letter pattern that is a prefix of `u ++ c :: w` with `c` a
non-letter is already a prefix of `u`. -/
theorem alphaPrefixStops (c : Char) (hc : c.isAlpha = false) :
    ∀ (u p : List Char), (∀ x ∈ p, x.isAlpha = true) →
      ∀ w, p <+: (u ++ c :: w) → p <+: u := by
  intro u
  induction u with
  | nil =>
    intro p hall w hp
    rw [List.nil_append] at hp
    rcases List.prefix_cons_iff.mp hp with h | ⟨t, ht, _⟩
    · simp [h]
    · have : c.isAlpha = true := hall c (by rw [ht]; exact List.mem_cons_self c t)
      rw [this] at hc
      cases hc
  | cons y u' ih =>
    intro p hall w hp
    cases p with
    | nil => exact List.nil_prefix
    | cons ph pt =>
      rw [List.cons_append] at hp
      have h2 := List.cons_prefix_cons.mp hp
      have hpt : pt <+: u' :=
        ih pt (fun x hx => hall x (List.mem_cons_of_mem ph hx)) w h2.2
      exact List.cons_prefix_cons.mpr ⟨h2.1, hpt⟩

/-- An all-letter, nonempty pattern that occurs inside `a ++ c :: b` with `c`
a non-letter occurs inside `a` or inside `b`. -/
theorem alphaJunction (p : List Char) (hne : p ≠ []) (hall : ∀ x ∈ p, x.isAlpha = true)
    (c : Char) (hc : c.isAlpha = false) :
    ∀ (a b : List Char), p <:+: (a ++ c :: b) → p <:+: a ∨ p <:+: b := by
  intro a
  induction a with
  | nil =>
    intro b hp
    rw [List.nil_append] at hp
    rcases List.infix_cons_iff.mp hp with hpre | hside
    · rcases List.prefix_cons_iff.mp hpre with h | ⟨t, ht, _⟩
      · exact absurd h hne
      · have : c.isAlpha = true := hall c (by rw [ht]; exact List.mem_cons_self c t)
        rw [this] at hc
        cases hc
    · exact Or.inr hside
  | cons y a' ih =>
    intro b hp
    rw [List.cons_append] at hp
    rcases List.infix_cons_iff.mp hp with hpre | hside
    · left
      have hu : p <+: y :: a' := by
        have := alphaPrefixStops c hc (y :: a') p hall b
        exact this (by rw [List.cons_append]; exact hpre)
      exact hu.isInfix
    · rcases ih b hside with h | h
      · exact Or.inl (List.infix_cons h)
      · exact Or.inr h

theorem glueChain_headNonAlpha (pairs : List (List Char × List Char)) (tl : List Char)
    (hpairs : ∀ pr ∈ pairs, headNonAlpha pr.1) (htl : headNonAlpha tl) :
    headNonAlpha (glueChain pairs tl) := by
  cases pairs with
  | nil => exact htl
  | cons pr rest =>
    obtain ⟨f, t, hft, hf⟩ := hpairs pr (List.mem_cons_self pr rest)
    exact ⟨f, t ++ (pr.2 ++ glueChain rest tl), by simp [glueChain, hft], hf⟩

/-- Main gluing lemma: a nonempty all-letter pattern absent from every fixed
piece, every variable piece and the tail — with every fixed piece and the tail
fenced by non-letters — is absent from the glued text. -/
theorem chainNotContains (p : List Char) (hne : p ≠ []) (hall : ∀ x ∈ p, x.isAlpha = true) :
    ∀ (pairs : List (List Char × List Char)) (tl : List Char),
      (∀ pr ∈ pairs, ¬ p <:+: pr.1 ∧ headNonAlpha pr.1 ∧ lastNonAlpha pr.1 ∧ ¬ p <:+: pr.2) →
      headNonAlpha tl → ¬ p <:+: tl →
      ¬ p <:+: glueChain pairs tl := by
  intro pairs
  induction pairs with
  | nil =>
    intro tl _ _ htl
    simpa [glueChain] using htl
  | cons pr rest ih =>
    intro tl hpairs htlh htl hinf
    obtain ⟨hfix, _, hlast, hvar⟩ := hpairs pr (List.mem_cons_self pr rest)
    obtain ⟨i, e, hie, he⟩ := hlast
    rw [glueChain, hie] at hinf
    have hsplit : p <:+: (i ++ e :: (pr.2 ++ glueChain rest tl)) := by
      simpa [List.append_assoc] using hinf
    rcases alphaJunction p hne hall e he i _ hsplit with h | h
    · have hIpr : p <:+: pr.1 := h.trans (by rw [hie]; exact (List.prefix_append i [e]).isInfix)
      exact hfix hIpr
    · have hGh : headNonAlpha (glueChain rest tl) :=
        glueChain_headNonAlpha rest tl
          (fun q hq => ((hpairs q (List.mem_cons_of_mem pr hq)).2.1)) htlh
      obtain ⟨g, G, hG, hg⟩ := hGh
      rw [hG] at h
      rcases alphaJunction p hne hall g hg pr.2 G h with h2 | h2
      · exact hvar h2
      · have hGnot : ¬ p <:+: glueChain rest tl :=
          ih tl (fun q hq => hpairs q (List.mem_cons_of_mem pr hq)) htlh htl
        rw [hG] at hGnot
        exact hGnot (List.infix_cons h2)

theorem headNonAlpha_of_headCheck (s : List Char) (hs : headCheck s = true) :
    headNonAlpha s := by
  cases s with
  | nil => simp [headCheck] at hs
  | cons f t => exact ⟨f, t, rfl, by simpa [headCheck] using hs⟩

theorem lastNonAlpha_of_lastCheck (s : List Char) (hs : lastCheck s = true) :
    lastNonAlpha s := by
  have hne : s ≠ [] := by
    intro h
    rw [h] at hs
    simp [lastCheck] at hs
  refine ⟨s.dropLast, s.getLast hne, (List.dropLast_concat_getLast hne).symm, ?_⟩
  unfold lastCheck at hs
  rw [List.getLast?_eq_getLast s hne] at hs
  simpa using hs

theorem notInfix_nil (p : List Char) (hne : p ≠ []) : ¬ p <:+: ([] : List Char) := by
  intro h
  exact hne (List.eq_nil_of_infix_nil h)

theorem headNonAlpha_append (a b : List Char) (ha : headNonAlpha a) :
    headNonAlpha (a ++ b) := by
  obtain ⟨f, t, hft, hf⟩ := ha
  exact ⟨f, t ++ b, by rw [hft]; rfl, hf⟩

theorem lastNonAlpha_append (a b : List Char) (hb : lastNonAlpha b) :
    lastNonAlpha (a ++ b) := by
  obtain ⟨i, e, hie, he⟩ := hb
  exact ⟨a ++ i, e, by rw [hie, List.append_assoc], he⟩

theorem notInfix_append (p : List Char) (hne : p ≠ []) (hall : ∀ x ∈ p, x.isAlpha = true)
    (a b : List Char) (ha : ¬ p <:+: a) (hb : ¬ p <:+: b) (hbh : headNonAlpha b) :
    ¬ p <:+: (a ++ b) := by
  obtain ⟨g, G, hG, hg⟩ := hbh
  rw [hG]
  intro h
  rcases alphaJunction p hne hall g hg a G h with h2 | h2
  · exact ha h2
  · exact hb (hG ▸ List.infix_cons h2)

/-- The no-mount composed script (non-root branch) contains an all-letter
pattern only if the cleaned user command does. -/
theorem noMountScript_noPat (pat : List Char) (hne : pat ≠ [])
    (hall : ∀ x ∈ pat, x.isAlpha = true)
    (hfix : ∀ s ∈ fixedPieces, ¬ pat <:+: s)
    (props : RunProps) (hroot : props.runAsRoot = false)
    (hcmd : ¬ pat <:+: (cleanedCommand props.command).data) :
    ¬ pat <:+: (noMountScript props).data := by
  have hdata : (noMountScript props).data =
      glueChain [(segNoMountPre.data, (cleanedCommand props.command).data)]
        segNoMountTail.data := by
    simp [noMountScript, suBlockNoMount, suCore, hroot, segNoMountPre, segNoMountTail,
      glueChain, String.data_append, List.append_assoc]
  rw [hdata]
  refine chainNotContains pat hne hall _ _ ?_ ?_ ?_
  · simp only [List.forall_mem_cons]
    exact ⟨⟨hfix segNoMountPre.data (by simp [fixedPieces]),
      headNonAlpha_of_headCheck _ (by decide), lastNonAlpha_of_lastCheck _ (by decide), hcmd⟩,
      List.forall_mem_nil _⟩
  · exact headNonAlpha_of_headCheck _ (by decide)
  · exact hfix segNoMountTail.data (by simp [fixedPieces])

/-- The mount-branch composed script (non-root branch) contains an all-letter
pattern only if one of the request's strings does. -/
theorem mountScript_noPat (pat : List Char) (hne : pat ≠ [])
    (hall : ∀ x ∈ pat, x.isAlpha = true)
    (hfix : ∀ s ∈ fixedPieces, ¬ pat <:+: s)
    (props : RunProps) (hroot : props.runAsRoot = false)
    (hmp : ¬ pat <:+: props.mountPoint.data)
    (hsrc : ¬ pat <:+: props.mountSource.data)
    (hopt : ¬ pat <:+: props.mountOptions.data)
    (husr : ¬ pat <:+: props.mountUsername.data)
    (hpw : ¬ pat <:+: props.mountPassword.data)
    (hcmd : ¬ pat <:+: (cleanedCommand props.command).data) :
    ¬ pat <:+: (mountScript props).data := by
  have hnil : ¬ pat <:+: ([] : List Char) := notInfix_nil pat hne
  have hbase : ¬ pat <:+: ((if props.mountOptions = "" then "rw" else props.mountOptions) : String).data := by
    split
    · exact hfix ("rw" : String).data (by simp [fixedPieces])
    · exact hopt
  have hnfsOpt : ¬ pat <:+: (nfsOptions props.mountOptions).data := by
    unfold nfsOptions
    split
    · exact hfix ("rw,sync" : String).data (by simp [fixedPieces])
    · exact hopt
  by_cases hnfs : props.mountType = "nfs"
  · have hdata : (mountScript props).data =
        glueChain
          [(litScriptHeader.data, []), (nfsInstall1.data, []), (nfsInstall2.data, []),
           (segInstallTailNfs.data, props.mountPoint.data),
           (litWarn.data, props.mountPoint.data),
           (segIfNfs.data, (nfsOptions props.mountOptions).data),
           ((" " : String).data, props.mountSource.data),
           ((" " : String).data, props.mountPoint.data),
           (segThenSu.data, (cleanedCommand props.command).data),
           (segSuUnmount.data, props.mountPoint.data)]
          litScriptTail.data := by
      simp [mountScript, suBlockMount, suCore, installPackagesOf, mountCommandOf, nfsMountCommand,
        nfsInstallPackages, segInstallTailNfs, segIfNfs, segThenSu, segSuUnmount,
        hnfs, hroot, glueChain, String.data_append, List.append_assoc]
    rw [hdata]
    refine chainNotContains pat hne hall _ _ ?_ ?_ ?_
    · simp only [List.forall_mem_cons]
      refine ⟨⟨hfix litScriptHeader.data (by simp [fixedPieces]),
          headNonAlpha_of_headCheck _ (by decide), lastNonAlpha_of_lastCheck _ (by decide), hnil⟩,
        ⟨hfix nfsInstall1.data (by simp [fixedPieces]),
          headNonAlpha_of_headCheck _ (by decide), lastNonAlpha_of_lastCheck _ (by decide), hnil⟩,
        ⟨hfix nfsInstall2.data (by simp [fixedPieces]),
          headNonAlpha_of_headCheck _ (by decide), lastNonAlpha_of_lastCheck _ (by decide), hnil⟩,
        ⟨hfix segInstallTailNfs.data (by simp [fixedPieces]),
          headNonAlpha_of_headCheck _ (by decide), lastNonAlpha_of_lastCheck _ (by decide), hmp⟩,
        ⟨hfix litWarn.data (by simp [fixedPieces]),
          headNonAlpha_of_headCheck _ (by decide), lastNonAlpha_of_lastCheck _ (by decide), hmp⟩,
        ⟨hfix segIfNfs.data (by simp [fixedPieces]),
          headNonAlpha_of_headCheck _ (by decide), lastNonAlpha_of_lastCheck _ (by decide), hnfsOpt⟩,
        ⟨hfix (" " : String).data (by simp [fixedPieces]),
          headNonAlpha_of_headCheck _ (by decide), lastNonAlpha_of_lastCheck _ (by decide), hsrc⟩,
        ⟨hfix (" " : String).data (by simp [fixedPieces]),
          headNonAlpha_of_headCheck _ (by decide), lastNonAlpha_of_lastCheck _ (by decide), hmp⟩,
        ⟨hfix segThenSu.data (by simp [fixedPieces]),
          headNonAlpha_of_headCheck _ (by decide), lastNonAlpha_of_lastCheck _ (by decide), hcmd⟩,
        ⟨hfix segSuUnmount.data (by simp [fixedPieces]),
          headNonAlpha_of_headCheck _ (by decide), lastNonAlpha_of_lastCheck _ (by decide), hmp⟩,
        List.forall_mem_nil _⟩
    · exact headNonAlpha_of_headCheck _ (by decide)
    · exact hfix litScriptTail.data (by simp [fixedPieces])
  by_cases hsmb : props.mountType = "smb"
  · by_cases hu : props.mountUsername = ""
    · have hdata : (mountScript props).data =
          glueChain
            [(litScriptHeader.data, []), (smbInstall1.data, []), (smbInstall2.data, []),
             (segInstallTailSmb.data, props.mountPoint.data),
             (litWarn.data, props.mountPoint.data),
             (segIfSmb.data, ((if props.mountOptions = "" then "rw" else props.mountOptions) : String).data),
             ((" " : String).data, props.mountSource.data),
             ((" " : String).data, props.mountPoint.data),
             (segThenSu.data, (cleanedCommand props.command).data),
             (segSuUnmount.data, props.mountPoint.data)]
            litScriptTail.data := by
        simp [mountScript, suBlockMount, suCore, installPackagesOf, mountCommandOf, smbMountCommand,
          smbOptions, smbInstallPackages, segInstallTailSmb, segIfSmb, segThenSu, segSuUnmount,
          hnfs, hsmb, hu, hroot, glueChain, String.data_append, List.append_assoc]
      rw [hdata]
      refine chainNotContains pat hne hall _ _ ?_ ?_ ?_
      · simp only [List.forall_mem_cons]
        refine ⟨⟨hfix litScriptHeader.data (by simp [fixedPieces]),
            headNonAlpha_of_headCheck _ (by decide), lastNonAlpha_of_lastCheck _ (by decide), hnil⟩,
          ⟨hfix smbInstall1.data (by simp [fixedPieces]),
            headNonAlpha_of_headCheck _ (by decide), lastNonAlpha_of_lastCheck _ (by decide), hnil⟩,
          ⟨hfix smbInstall2.data (by simp [fixedPieces]),
            headNonAlpha_of_headCheck _ (by decide), lastNonAlpha_of_lastCheck _ (by decide), hnil⟩,
          ⟨hfix segInstallTailSmb.data (by simp [fixedPieces]),
            headNonAlpha_of_headCheck _ (by decide), lastNonAlpha_of_lastCheck _ (by decide), hmp⟩,
          ⟨hfix litWarn.data (by simp [fixedPieces]),
            headNonAlpha_of_headCheck _ (by decide), lastNonAlpha_of_lastCheck _ (by decide), hmp⟩,
          ⟨hfix segIfSmb.data (by simp [fixedPieces]),
            headNonAlpha_of_headCheck _ (by decide), lastNonAlpha_of_lastCheck _ (by decide), hbase⟩,
          ⟨hfix (" " : String).data (by simp [fixedPieces]),
            headNonAlpha_of_headCheck _ (by decide), lastNonAlpha_of_lastCheck _ (by decide), hsrc⟩,
          ⟨hfix (" " : String).data (by simp [fixedPieces]),
            headNonAlpha_of_headCheck _ (by decide), lastNonAlpha_of_lastCheck _ (by decide), hmp⟩,
          ⟨hfix segThenSu.data (by simp [fixedPieces]),
            headNonAlpha_of_headCheck _ (by decide), lastNonAlpha_of_lastCheck _ (by decide), hcmd⟩,
          ⟨hfix segSuUnmount.data (by simp [fixedPieces]),
            headNonAlpha_of_headCheck _ (by decide), lastNonAlpha_of_lastCheck _ (by decide), hmp⟩,
          List.forall_mem_nil _⟩
      · exact headNonAlpha_of_headCheck _ (by decide)
      · exact hfix litScriptTail.data (by simp [fixedPieces])
    · by_cases hpwe : props.mountPassword = ""
      · have hdata : (mountScript props).data =
            glueChain
              [(litScriptHeader.data, []), (smbInstall1.data, []), (smbInstall2.data, []),
               (segInstallTailSmb.data, props.mountPoint.data),
               (litWarn.data, props.mountPoint.data),
               (segIfSmb.data, ((if props.mountOptions = "" then "rw" else props.mountOptions) : String).data),
               ((",username=" : String).data, props.mountUsername.data),
               ((" " : String).data, props.mountSource.data),
               ((" " : String).data, props.mountPoint.data),
               (segThenSu.data, (cleanedCommand props.command).data),
               (segSuUnmount.data, props.mountPoint.data)]
              litScriptTail.data := by
          simp [mountScript, suBlockMount, suCore, installPackagesOf, mountCommandOf, smbMountCommand,
            smbOptions, smbInstallPackages, segInstallTailSmb, segIfSmb, segThenSu, segSuUnmount,
            hnfs, hsmb, hu, hpwe, hroot, glueChain, String.data_append, List.append_assoc]
        rw [hdata]
        refine chainNotContains pat hne hall _ _ ?_ ?_ ?_
        · simp only [List.forall_mem_cons]
          refine ⟨⟨hfix litScriptHeader.data (by simp [fixedPieces]),
              headNonAlpha_of_headCheck _ (by decide), lastNonAlpha_of_lastCheck _ (by decide), hnil⟩,
            ⟨hfix smbInstall1.data (by simp [fixedPieces]),
              headNonAlpha_of_headCheck _ (by decide), lastNonAlpha_of_lastCheck _ (by decide), hnil⟩,
            ⟨hfix smbInstall2.data (by simp [fixedPieces]),
              headNonAlpha_of_headCheck _ (by decide), lastNonAlpha_of_lastCheck _ (by decide), hnil⟩,
            ⟨hfix segInstallTailSmb.data (by simp [fixedPieces]),
              headNonAlpha_of_headCheck _ (by decide), lastNonAlpha_of_lastCheck _ (by decide), hmp⟩,
            ⟨hfix litWarn.data (by simp [fixedPieces]),
              headNonAlpha_of_headCheck _ (by decide), lastNonAlpha_of_lastCheck _ (by decide), hmp⟩,
            ⟨hfix segIfSmb.data (by simp [fixedPieces]),
              headNonAlpha_of_headCheck _ (by decide), lastNonAlpha_of_lastCheck _ (by decide), hbase⟩,
            ⟨hfix (",username=" : String).data (by simp [fixedPieces]),
              headNonAlpha_of_headCheck _ (by decide), lastNonAlpha_of_lastCheck _ (by decide), husr⟩,
            ⟨hfix (" " : String).data (by simp [fixedPieces]),
              headNonAlpha_of_headCheck _ (by decide), lastNonAlpha_of_lastCheck _ (by decide), hsrc⟩,
            ⟨hfix (" " : String).data (by simp [fixedPieces]),
              headNonAlpha_of_headCheck _ (by decide), lastNonAlpha_of_lastCheck _ (by decide), hmp⟩,
            ⟨hfix segThenSu.data (by simp [fixedPieces]),
              headNonAlpha_of_headCheck _ (by decide), lastNonAlpha_of_lastCheck _ (by decide), hcmd⟩,
            ⟨hfix segSuUnmount.data (by simp [fixedPieces]),
              headNonAlpha_of_headCheck _ (by decide), lastNonAlpha_of_lastCheck _ (by decide), hmp⟩,
            List.forall_mem_nil _⟩
        · exact headNonAlpha_of_headCheck _ (by decide)
        · exact hfix litScriptTail.data (by simp [fixedPieces])
      · have hdata : (mountScript props).data =
            glueChain
              [(litScriptHeader.data, []), (smbInstall1.data, []), (smbInstall2.data, []),
               (segInstallTailSmb.data, props.mountPoint.data),
               (litWarn.data, props.mountPoint.data),
               (segIfSmb.data, ((if props.mountOptions = "" then "rw" else props.mountOptions) : String).data),
               ((",username=" : String).data, props.mountUsername.data),
               ((",password=" : String).data, props.mountPassword.data),
               ((" " : String).data, props.mountSource.data),
               ((" " : String).data, props.mountPoint.data),
               (segThenSu.data, (cleanedCommand props.command).data),
               (segSuUnmount.data, props.mountPoint.data)]
              litScriptTail.data := by
          simp [mountScript, suBlockMount, suCore, installPackagesOf, mountCommandOf, smbMountCommand,
            smbOptions, smbInstallPackages, segInstallTailSmb, segIfSmb, segThenSu, segSuUnmount,
            hnfs, hsmb, hu, hpwe, hroot, glueChain, String.data_append, List.append_assoc]
        rw [hdata]
        refine chainNotContains pat hne hall _ _ ?_ ?_ ?_
        · simp only [List.forall_mem_cons]
          refine ⟨⟨hfix litScriptHeader.data (by simp [fixedPieces]),
              headNonAlpha_of_headCheck _ (by decide), lastNonAlpha_of_lastCheck _ (by decide), hnil⟩,
            ⟨hfix smbInstall1.data (by simp [fixedPieces]),
              headNonAlpha_of_headCheck _ (by decide), lastNonAlpha_of_lastCheck _ (by decide), hnil⟩,
            ⟨hfix smbInstall2.data (by simp [fixedPieces]),
              headNonAlpha_of_headCheck _ (by decide), lastNonAlpha_of_lastCheck _ (by decide), hnil⟩,
            ⟨hfix segInstallTailSmb.data (by simp [fixedPieces]),
              headNonAlpha_of_headCheck _ (by decide), lastNonAlpha_of_lastCheck _ (by decide), hmp⟩,
            ⟨hfix litWarn.data (by simp [fixedPieces]),
              headNonAlpha_of_headCheck _ (by decide), lastNonAlpha_of_lastCheck _ (by decide), hmp⟩,
            ⟨hfix segIfSmb.data (by simp [fixedPieces]),
              headNonAlpha_of_headCheck _ (by decide), lastNonAlpha_of_lastCheck _ (by decide), hbase⟩,
            ⟨hfix (",username=" : String).data (by simp [fixedPieces]),
              headNonAlpha_of_headCheck _ (by decide), lastNonAlpha_of_lastCheck _ (by decide), husr⟩,
            ⟨hfix (",password=" : String).data (by simp [fixedPieces]),
              headNonAlpha_of_headCheck _ (by decide), lastNonAlpha_of_lastCheck _ (by decide), hpw⟩,
            ⟨hfix (" " : String).data (by simp [fixedPieces]),
              headNonAlpha_of_headCheck _ (by decide), lastNonAlpha_of_lastCheck _ (by decide), hsrc⟩,
            ⟨hfix (" " : String).data (by simp [fixedPieces]),
              headNonAlpha_of_headCheck _ (by decide), lastNonAlpha_of_lastCheck _ (by decide), hmp⟩,
            ⟨hfix segThenSu.data (by simp [fixedPieces]),
              headNonAlpha_of_headCheck _ (by decide), lastNonAlpha_of_lastCheck _ (by decide), hcmd⟩,
            ⟨hfix segSuUnmount.data (by simp [fixedPieces]),
              headNonAlpha_of_headCheck _ (by decide), lastNonAlpha_of_lastCheck _ (by decide), hmp⟩,
            List.forall_mem_nil _⟩
        · exact headNonAlpha_of_headCheck _ (by decide)
        · exact hfix litScriptTail.data (by simp [fixedPieces])
  · have hdata : (mountScript props).data =
        glueChain
          [(litScriptHeader.data, []), (litMkdir.data, props.mountPoint.data),
           (litWarn.data, props.mountPoint.data),
           (litIf.data, []),
           (segThenSu.data, (cleanedCommand props.command).data),
           (segSuUnmount.data, props.mountPoint.data)]
          litScriptTail.data := by
      simp [mountScript, suBlockMount, suCore, installPackagesOf, mountCommandOf,
        segThenSu, segSuUnmount,
        hnfs, hsmb, hroot, glueChain, String.data_append, List.append_assoc]
    rw [hdata]
    refine chainNotContains pat hne hall _ _ ?_ ?_ ?_
    · simp only [List.forall_mem_cons]
      refine ⟨⟨hfix litScriptHeader.data (by simp [fixedPieces]),
          headNonAlpha_of_headCheck _ (by decide), lastNonAlpha_of_lastCheck _ (by decide), hnil⟩,
        ⟨hfix litMkdir.data (by simp [fixedPieces]),
          headNonAlpha_of_headCheck _ (by decide), lastNonAlpha_of_lastCheck _ (by decide), hmp⟩,
        ⟨hfix litWarn.data (by simp [fixedPieces]),
          headNonAlpha_of_headCheck _ (by decide), lastNonAlpha_of_lastCheck _ (by decide), hmp⟩,
        ⟨hfix litIf.data (by simp [fixedPieces]),
          headNonAlpha_of_headCheck _ (by decide), lastNonAlpha_of_lastCheck _ (by decide), hnil⟩,
        ⟨hfix segThenSu.data (by simp [fixedPieces]),
          headNonAlpha_of_headCheck _ (by decide), lastNonAlpha_of_lastCheck _ (by decide), hcmd⟩,
        ⟨hfix segSuUnmount.data (by simp [fixedPieces]),
          headNonAlpha_of_headCheck _ (by decide), lastNonAlpha_of_lastCheck _ (by decide), hmp⟩,
        List.forall_mem_nil _⟩
    · exact headNonAlpha_of_headCheck _ (by decide)
    · exact hfix litScriptTail.data (by simp [fixedPieces])

/-- The composed script (non-root branch) contains an all-letter pattern only
if one of the request's strings does. -/
theorem fullScript_noPat (pat : List Char) (hne : pat ≠ [])
    (hall : ∀ x ∈ pat, x.isAlpha = true)
    (hfix : ∀ s ∈ fixedPieces, ¬ pat <:+: s)
    (props : RunProps) (hroot : props.runAsRoot = false)
    (hmp : ¬ pat <:+: props.mountPoint.data)
    (hsrc : ¬ pat <:+: props.mountSource.data)
    (hopt : ¬ pat <:+: props.mountOptions.data)
    (husr : ¬ pat <:+: props.mountUsername.data)
    (hpw : ¬ pat <:+: props.mountPassword.data)
    (hcmd : ¬ pat <:+: (cleanedCommand props.command).data) :
    ¬ pat <:+: (fullScript props).data := by
  by_cases hc : props.mountType ≠ "" ∧ props.mountSource ≠ ""
  · have hfs : fullScript props = mountScript props := by
      unfold fullScript
      rw [if_pos hc]
    rw [hfs]
    exact mountScript_noPat pat hne hall hfix props hroot hmp hsrc hopt husr hpw hcmd
  · have hfs : fullScript props = noMountScript props := by
      unfold fullScript
      rw [if_neg hc]
    rw [hfs]
    exact noMountScript_noPat pat hne hall hfix props hroot hcmd

/-- The container bootstrap command contains an all-letter pattern only if the
base64 payload does. -/
theorem containerCmd_noPat (pat : List Char) (hne : pat ≠ [])
    (hall : ∀ x ∈ pat, x.isAlpha = true)
    (hfix : ∀ s ∈ fixedPieces, ¬ pat <:+: s)
    (enc : String) (henc : ¬ pat <:+: enc.data) :
    ¬ pat <:+: (containerCmd enc).data := by
  have hdata : (containerCmd enc).data =
      glueChain
        [(containerCmdPre1.data, []), (containerCmdPre2.data, []), (containerCmdPre3.data, []),
         (containerCmdPre4.data, []), (containerCmdPre5.data, enc.data)]
        containerCmdPost.data := by
    simp [containerCmd, containerCmdPre, glueChain, String.data_append, List.append_assoc]
  rw [hdata]
  have hnil : ¬ pat <:+: ([] : List Char) := notInfix_nil pat hne
  refine chainNotContains pat hne hall _ _ ?_ ?_ ?_
  · simp only [List.forall_mem_cons]
    refine ⟨⟨hfix containerCmdPre1.data (by simp [fixedPieces]),
        headNonAlpha_of_headCheck _ (by decide), lastNonAlpha_of_lastCheck _ (by decide), hnil⟩,
      ⟨hfix containerCmdPre2.data (by simp [fixedPieces]),
        headNonAlpha_of_headCheck _ (by decide), lastNonAlpha_of_lastCheck _ (by decide), hnil⟩,
      ⟨hfix containerCmdPre3.data (by simp [fixedPieces]),
        headNonAlpha_of_headCheck _ (by decide), lastNonAlpha_of_lastCheck _ (by decide), hnil⟩,
      ⟨hfix containerCmdPre4.data (by simp [fixedPieces]),
        headNonAlpha_of_headCheck _ (by decide), lastNonAlpha_of_lastCheck _ (by decide), hnil⟩,
      ⟨hfix containerCmdPre5.data (by simp [fixedPieces]),
        headNonAlpha_of_headCheck _ (by decide), lastNonAlpha_of_lastCheck _ (by decide), henc⟩,
      List.forall_mem_nil _⟩
  · exact headNonAlpha_of_headCheck _ (by decide)
  · exact hfix containerCmdPost.data (by simp [fixedPieces])

theorem fixedPieces_sudoers : ∀ s ∈ fixedPieces, ¬ ("sudoers" : String).data <:+: s := by
  decide

theorem fixedPieces_nopasswd : ∀ s ∈ fixedPieces, ¬ ("NOPASSWD" : String).data <:+: s := by
  decide

/-- C4: for every request with `runAsRoot = false` (dropPrivileges) — provided
the request's own strings and the base64 payload do not themselves spell a
sudoers-grant token — the composed script executes the cleaned user command
under the separate unprivileged identity (a heredoc fed to
`su - activepieces`), and neither the composed script nor the container
bootstrap command contains a `sudoers` entry or a `NOPASSWD` grant: the
generated text gives the `activepieces` identity no sudo, mount or
package-install authority (the bootstrap creates the user with no sudoers
line, and all mount/install commands run outside the `su` context). -/
theorem c4_dropPrivileges_no_elevated_grants (props : RunProps) (enc : String)
    (hroot : props.runAsRoot = false)
    (hmp : grantFree props.mountPoint) (hsrc : grantFree props.mountSource)
    (hopt : grantFree props.mountOptions) (husr : grantFree props.mountUsername)
    (hpw : grantFree props.mountPassword)
    (hcmd : grantFree (cleanedCommand props.command))
    (henc : grantFree enc) :
    (∃ pre post, fullScript props = pre ++ suCore (cleanedCommand props.command) ++ post) ∧
    grantFree (fullScript props) ∧ grantFree (containerCmd enc) := by
  constructor
  · by_cases hc : props.mountType ≠ "" ∧ props.mountSource ≠ ""
    · have hfs : fullScript props = mountScript props := by
        unfold fullScript
        rw [if_pos hc]
      refine ⟨litScriptHeader ++ installPackagesOf props ++ litMkdir ++ props.mountPoint ++
          litWarn ++ props.mountPoint ++ litIf ++ mountCommandOf props ++ litThen ++
          "\n# Switch to non-root user for command execution\n",
        litUnmountPre ++ litUmount ++ props.mountPoint ++ litScriptTail, ?_⟩
      rw [hfs]
      apply String.ext
      simp [mountScript, suBlockMount, hroot, String.data_append, List.append_assoc]
    · have hfs : fullScript props = noMountScript props := by
        unfold fullScript
        rw [if_neg hc]
      refine ⟨"#!/bin/bash\n# No mount configuration\nset +e\n\n" ++
          "\n# Run command as non-root user\n", "\n", ?_⟩
      rw [hfs]
      apply String.ext
      simp [noMountScript, suBlockNoMount, hroot, String.data_append, List.append_assoc]
  constructor
  · exact ⟨fullScript_noPat _ (by decide) (by decide) fixedPieces_sudoers props hroot
        hmp.1 hsrc.1 hopt.1 husr.1 hpw.1 hcmd.1,
      fullScript_noPat _ (by decide) (by decide) fixedPieces_nopasswd props hroot
        hmp.2 hsrc.2 hopt.2 husr.2 hpw.2 hcmd.2⟩
  · exact ⟨containerCmd_noPat _ (by decide) (by decide) fixedPieces_sudoers enc henc.1,
      containerCmd_noPat _ (by decide) (by decide) fixedPieces_nopasswd enc henc.2⟩

/-- Witness for C4 at a concrete smb request with credentials. -/
theorem c4_dropPrivileges_no_elevated_grants_witness :
    c4Props.runAsRoot = false ∧ grantFree c4Props.mountPoint ∧
    grantFree (cleanedCommand c4Props.command) ∧ grantFree "ZW5j" ∧
    ((∃ pre post, fullScript c4Props = pre ++ suCore (cleanedCommand c4Props.command) ++ post) ∧
      grantFree (fullScript c4Props) ∧ grantFree (containerCmd "ZW5j")) :=
  ⟨by decide, by decide, by decide, by decide,
    c4_dropPrivileges_no_elevated_grants c4Props "ZW5j" (by decide) (by decide) (by decide) (by decide) (by decide)
      (by decide) (by decide) (by decide)⟩

theorem shebangScan_append (l rest : List Char) (hl : ∀ c ∈ l, jsDotExcluded c = false) :
    shebangScan (l ++ '\n' :: rest) = some rest := by
  induction l with
  | nil => simp [shebangScan]
  | cons c cs ih =>
    have hc := hl c (List.mem_cons_self c cs)
    have hcn : c ≠ '\n' := by
      intro h
      rw [h] at hc
      simp [jsDotExcluded] at hc
    simp [shebangScan, hcn, hc, ih (fun x hx => hl x (List.mem_cons_of_mem c hx))]

theorem stripShebang_of_directive (d rest : String)
    (hd : ∀ c ∈ d.data, jsDotExcluded c = false) :
    stripShebang ("#!" ++ d ++ "\n" ++ rest) = rest := by
  have h1 : ("#!" : String).data = ['#', '!'] := rfl
  have h2 : ("\n" : String).data = ['\n'] := rfl
  have hdata : ("#!" ++ d ++ "\n" ++ rest).data =
      '#' :: '!' :: (d.data ++ '\n' :: rest.data) := by
    simp [String.data_append, h1, h2]
  unfold stripShebang
  rw [hdata]
  simp [shebangScan_append d.data rest.data hd]

/-- C6 (amended): a leading interpreter-directive line is stripped exactly once
from the embedded copy when it is newline-terminated (and free of the
characters the regex dot cannot cross); the remainder — including any further
directive-like lines, which are left in place — is then only whitespace-trimmed.
The original claim fails for a directive with no trailing newline (see the
counterexample): `/^#!.*\n/` requires the terminating newline. -/
theorem c6_newline_terminated_shebang_stripped_once (d rest : String)
    (hd : ∀ c ∈ d.data, jsDotExcluded c = false) :
    stripShebang ("#!" ++ d ++ "\n" ++ rest) = rest ∧
    cleanedCommand ("#!" ++ d ++ "\n" ++ rest) = jsTrim rest := by
  have h := stripShebang_of_directive d rest hd
  refine ⟨h, ?_⟩
  unfold cleanedCommand
  rw [h]

/-- C6 counterexample: the user script `"#!/bin/bash"` — a script whose first
line begins with `#!` but has no trailing newline — is embedded untouched: the
directive is not stripped. -/
theorem c6_shebang_without_newline_counterexample :
    cleanedCommand "#!/bin/bash" = "#!/bin/bash" ∧
    (cleanedCommand "#!/bin/bash").data.take 2 = ['#', '!'] := by
  constructor
  · decide
  · decide

theorem demux_foldl_frames (fs : List DockerFrame) (h : ∀ f ∈ fs, f.tag = 1 ∨ f.tag = 2) :
    ∀ acc : List Nat × List Nat,
      List.foldl demuxChunk acc (fs.map encodeFrame) =
        (acc.1 ++ payloadsOf 1 fs, acc.2 ++ payloadsOf 2 fs) := by
  induction fs with
  | nil =>
    intro acc
    simp [payloadsOf]
  | cons f fs ih =>
    intro acc
    have htail := fun g hg => h g (List.mem_cons_of_mem f hg)
    rcases h f (List.mem_cons_self f fs) with h1 | h2
    · have hstep : demuxChunk acc (encodeFrame f) = (acc.1 ++ f.payload, acc.2) := by
        simp [demuxChunk, encodeFrame, h1, be32]
      simp [List.foldl, hstep, ih htail, payloadsOf, h1, List.append_assoc]
    · have hstep : demuxChunk acc (encodeFrame f) = (acc.1, acc.2 ++ f.payload) := by
        simp [demuxChunk, encodeFrame, h2, be32]
      simp [List.foldl, hstep, ih htail, payloadsOf, h2, List.append_assoc]

/-- C7 (amended): when the multiplexed stream is delivered one frame per
`data` chunk, the demultiplexer reconstructs stdout as the concatenation, in
stream order, of the payloads of tag-1 frames and stderr likewise from tag-2
frames, for every interleaving; a chunk whose first byte is neither 1 nor 2 is
appended whole (8-byte header included) to stdout. The original claim's
"arbitrary chunking" fails (see the counterexample). -/
theorem c7_frame_per_chunk_demux (fs : List DockerFrame) (h : ∀ f ∈ fs, f.tag = 1 ∨ f.tag = 2) :
    demux (fs.map encodeFrame) = (payloadsOf 1 fs, payloadsOf 2 fs) ∧
    (∀ acc chunk, chunk.head? ≠ some 1 → chunk.head? ≠ some 2 →
      demuxChunk acc chunk = (acc.1 ++ chunk, acc.2)) := by
  constructor
  · have := demux_foldl_frames fs h ([], [])
    simpa [demux] using this
  · intro acc chunk h1 h2
    simp [demuxChunk, h1, h2]

/-- C7 counterexample: a stream of two stdout frames (payloads `A` and `B`)
is reconstructed correctly when delivered one frame per chunk, but not when
the same bytes arrive as a single chunk — the demultiplexer then treats the
second frame's header and payload as payload of the first. -/
theorem c7_chunking_counterexample :
    payloadsOf 1 [⟨1, [65]⟩, ⟨1, [66]⟩] = [65, 66] ∧
    demux [encodeFrame ⟨1, [65]⟩, encodeFrame ⟨1, [66]⟩] = ([65, 66], []) ∧
    demux [encodeFrame ⟨1, [65]⟩ ++ encodeFrame ⟨1, [66]⟩] ≠
      (payloadsOf 1 [⟨1, [65]⟩, ⟨1, [66]⟩], payloadsOf 2 [⟨1, [65]⟩, ⟨1, [66]⟩]) := by
  refine ⟨by decide, by decide, by decide⟩

/-- C3: for every request with mount kind `nfs` or `smb` and a non-empty
mount source, the composed script is, in this order: an install stage (the
full install fragment for the kind), a mount attempt (the generated mount
command), the cleaned user script, and an unmount attempt
(`umount <mountPoint> 2>/dev/null || true`); the decomposition holds for every
user script text — in particular ones that exit non-zero — and for both
privilege modes. -/
theorem c3_mount_script_ordering (p : RunProps)
    (hk : p.mountType = "nfs" ∨ p.mountType = "smb") (hs : p.mountSource ≠ "") :
    (installPackagesOf p = nfsInstallPackages ∨ installPackagesOf p = smbInstallPackages) ∧
    (mountCommandOf p = nfsMountCommand p.mountOptions p.mountSource p.mountPoint ∨
      mountCommandOf p = smbMountCommand p.mountOptions p.mountUsername p.mountPassword p.mountSource p.mountPoint) ∧
    ∃ s1 s2 s3 s4, fullScript p =
      s1 ++ installPackagesOf p ++ s2 ++ mountCommandOf p ++ s3 ++
        cleanedCommand p.command ++ s4 ++
        ("umount " ++ p.mountPoint ++ " 2>/dev/null || true\n") := by
  have hmt : p.mountType ≠ "" := by
    rcases hk with h | h <;> rw [h] <;> decide
  have hfs : fullScript p = mountScript p := by
    unfold fullScript
    rw [if_pos ⟨hmt, hs⟩]
  refine ⟨?_, ?_, ?_⟩
  · rcases hk with h | h
    · exact Or.inl (by simp [installPackagesOf, h])
    · refine Or.inr ?_
      simp [installPackagesOf, h]
  · rcases hk with h | h
    · exact Or.inl (by simp [mountCommandOf, h])
    · refine Or.inr ?_
      simp [mountCommandOf, h]
  · rw [hfs]
    cases hr : p.runAsRoot with
    | true =>
      refine ⟨litScriptHeader, litMkdir ++ p.mountPoint ++ litWarn ++ p.mountPoint ++ litIf,
        litThen ++ "\n# Execute command as root\ncd /workspace\n",
        "\n" ++ litUnmountPre, ?_⟩
      apply String.ext
      simp [mountScript, rootBlock, hr, litUmount, litScriptTail, litUnmountPre,
        String.data_append, List.append_assoc]
    | false =>
      refine ⟨litScriptHeader, litMkdir ++ p.mountPoint ++ litWarn ++ p.mountPoint ++ litIf,
        litThen ++ "\n# Switch to non-root user for command execution\n" ++
          "su - activepieces << 'EOF'\ncd /workspace\n",
        "\nEOF\n" ++ litUnmountPre, ?_⟩
      apply String.ext
      simp [mountScript, suBlockMount, suCore, hr, litUmount, litScriptTail, litUnmountPre,
        String.data_append, List.append_assoc]

theorem tryRun_ok (env : DockerEnv)
    (himg : env.pullError = none) (hcr : env.createError = none)
    (hat : env.attachError = none) (hst : env.startError = none)
    (hwt : env.waitError = none) :
    tryRun env = Except.ok
      ⟨true, (demux env.chunks).1, (demux env.chunks).1, (demux env.chunks).2, none, none⟩ := by
  have hres : (if env.imageLocal then none else env.pullError) = (none : Option JsError) := by
    cases env.imageLocal <;> simp [himg]
  simp [tryRun, hres, hcr, hat, hst, hwt]

/-- C1 (amended): when the environment runs to completion (no stage rejects
and the timeout does not fire) and the user script exits non-zero, the run
returns a result rather than raising — but the result's success flag is
unconditionally `true`, it carries no exit code (`exitCode` reads as absent),
and the exit status delivered by `container.wait()` is discarded. The original
claim's "success flag is false" and "exit code is propagated" fail (see the
counterexample). -/
theorem c1_user_script_failure_result (p : RunProps) (env : DockerEnv)
    (himg : env.pullError = none) (hcr : env.createError = none)
    (hat : env.attachError = none) (hst : env.startError = none)
    (hwt : env.waitError = none)
    (_hnokill : killIssued p env = false) (_hexit : env.waitStatusCode ≠ 0) :
    runModel p env = Except.ok
      ⟨true, (demux env.chunks).1, (demux env.chunks).1, (demux env.chunks).2, none, none⟩ := by
  simp [runModel, tryRun_ok env himg hcr hat hst hwt]

/-- C1 counterexample: a run whose container exits with status 3 and no
timeout still returns `success := true` with no exit code in the result. -/
theorem c1_success_flag_counterexample :
    envEx1.waitStatusCode = 3 ∧ killIssued pEx1 envEx1 = false ∧
    runModel pEx1 envEx1 = Except.ok ⟨true, [], [], [], none, none⟩ ∧
    (⟨true, [], [], [], none, none⟩ : ExecResult).success = true ∧
    (⟨true, [], [], [], none, none⟩ : ExecResult).exitCode = none := by
  refine ⟨rfl, by decide, by decide, rfl, rfl⟩

/-- C1 witness at a concrete failing run (exit status 3, no timeout). -/
theorem c1_user_script_failure_result_witness :
    envEx1.waitStatusCode ≠ 0 ∧ killIssued pEx1 envEx1 = false ∧
    runModel pEx1 envEx1 = Except.ok
      ⟨true, (demux envEx1.chunks).1, (demux envEx1.chunks).1, (demux envEx1.chunks).2, none, none⟩ :=
  ⟨by decide, by decide,
    c1_user_script_failure_result pEx1 envEx1 rfl rfl rfl rfl rfl (by decide) (by decide)⟩

/-- C2 (amended): when the timeout fires first, the supervisor issues
`container.kill()` and still returns a result with whatever output was
demultiplexed up to that point; the result carries no exit code — but also no
`timedOut` marker at all (the returned object has no such key). The original
claim's "timedOut flag set to true" fails (see the counterexample). -/
theorem c2_timeout_returns_partial_output (p : RunProps) (env : DockerEnv)
    (himg : env.pullError = none) (hcr : env.createError = none)
    (hat : env.attachError = none) (hst : env.startError = none)
    (hwt : env.waitError = none)
    (hkill : killIssued p env = true) :
    killIssued p env = true ∧
    runModel p env = Except.ok
      ⟨true, (demux env.chunks).1, (demux env.chunks).1, (demux env.chunks).2, none, none⟩ :=
  ⟨hkill, by simp [runModel, tryRun_ok env himg hcr hat hst hwt]⟩

/-- C2 counterexample: a run whose 1-second timeout fires (runtime 5000 ms)
returns the captured output with no exit code, but its `timedOut` field is
absent rather than `true`. -/
theorem c2_timed_out_flag_counterexample :
    killIssued pEx2 envEx2 = true ∧
    runModel pEx2 envEx2 = Except.ok ⟨true, [104, 105], [104, 105], [], none, none⟩ ∧
    (⟨true, [104, 105], [104, 105], [], none, none⟩ : ExecResult).timedOut ≠ some true ∧
    (⟨true, [104, 105], [104, 105], [], none, none⟩ : ExecResult).exitCode = none := by
  refine ⟨by decide, by decide, by decide, rfl⟩

/-- C2 witness at a concrete timed-out run with one captured stdout frame. -/
theorem c2_timeout_returns_partial_output_witness :
    killIssued pEx2 envEx2 = true ∧
    runModel pEx2 envEx2 = Except.ok
      ⟨true, (demux envEx2.chunks).1, (demux envEx2.chunks).1, (demux envEx2.chunks).2, none, none⟩ :=
  ⟨(c2_timeout_returns_partial_output pEx2 envEx2 rfl rfl rfl rfl rfl (by decide)).1,
    (c2_timeout_returns_partial_output pEx2 envEx2 rfl rfl rfl rfl rfl (by decide)).2⟩

/-- C5 (amended): no failure mode is captured into an `ExecutionResult`:
every failure inside the try block — including create/attach/start/wait
failures — is re-thrown by the catch block; a failure that is neither a
socket `connect ENOENT` nor a 404 is re-thrown verbatim. The original claim
(only control-plane and image failures raised, everything else captured)
fails (see the counterexample). -/
theorem c5_errors_rethrown_verbatim (p : RunProps) (env : DockerEnv) (e : JsError)
    (htry : tryRun env = Except.error e)
    (hsock : messageContains e "connect ENOENT" = false)
    (h404 : e.statusCode ≠ some 404) :
    runModel p env = Except.error e := by
  simp [runModel, htry, mapCaughtError, hsock, h404]

/-- C5 counterexample: a `createContainer` failure `boom` — neither a socket
`connect ENOENT` error nor a 404 — is raised to the caller instead of being
captured into a returned result. -/
theorem c5_create_failure_counterexample :
    messageContains ⟨"boom", none⟩ "connect ENOENT" = false ∧
    (⟨"boom", none⟩ : JsError).statusCode ≠ some 404 ∧
    envEx5.createError = some ⟨"boom", none⟩ ∧
    runModel pEx5 envEx5 = Except.error ⟨"boom", none⟩ := by
  refine ⟨by decide, by decide, rfl, by decide⟩

/-- C5 witness at a concrete create failure. -/
theorem c5_errors_rethrown_verbatim_witness :
    tryRun envEx5 = Except.error ⟨"boom", none⟩ ∧
    runModel pEx5 envEx5 = Except.error ⟨"boom", none⟩ :=
  ⟨by decide, c5_errors_rethrown_verbatim pEx5 envEx5 ⟨"boom", none⟩ (by decide) (by decide) (by decide)⟩

/-- C10: for every request whose `timeout` property is absent or `0`, the
supervision timer is armed for 30 seconds: `(timeout || 30) * 1000` replaces
the falsy value with the default 30, so a timeout of 0 does not mean "no
timeout", and the kill decision compares the container's runtime against
30 000 ms. -/
theorem c10_falsy_timeout_defaults_30s (p : RunProps) (ht : p.timeout = none ∨ p.timeout = some 0) :
    executionTimeoutMs p.timeout = 30 * 1000 ∧
    ∀ env : DockerEnv, killIssued p env = decide (30 * 1000 ≤ env.containerRuntimeMs) := by
  have h : executionTimeoutMs p.timeout = 30 * 1000 := by
    rcases ht with h | h <;> rw [h] <;> rfl
  refine ⟨h, fun env => ?_⟩
  unfold killIssued
  rw [h]

/-- C10 witness at a request with `timeout = 0`. -/
theorem c10_falsy_timeout_defaults_30s_witness :
    (pEx10.timeout = none ∨ pEx10.timeout = some 0) ∧
    executionTimeoutMs pEx10.timeout = 30 * 1000 ∧
    killIssued pEx10 envEx10 = decide (30 * 1000 ≤ envEx10.containerRuntimeMs) :=
  ⟨Or.inr rfl, (c10_falsy_timeout_defaults_30s pEx10 (Or.inr rfl)).1, (c10_falsy_timeout_defaults_30s pEx10 (Or.inr rfl)).2 envEx10⟩

theorem smbOptions_eq (o u pw : String) :
    smbOptions o u pw = (if o = "" then "rw" else o) ++ credSuffix u pw := by
  unfold smbOptions credSuffix
  by_cases hu : u = ""
  · simp [hu]
  · by_cases hpw : pw = ""
    · simp [hu, hpw, String.append_assoc]
    · simp [hu, hpw, String.append_assoc]

/-- C8: an NFS mount request with empty/unspecified options generates
`mount -t nfs -o rw,sync <source> <mountPoint>`; an SMB/CIFS request with
empty options (and no username) generates `mount -t cifs -o rw ...`; and
`username=`/`password=` options are appended only in the CIFS branch — the
NFS mount command is independent of the credential properties, while the CIFS
command appends exactly `credSuffix`. -/
theorem c8_default_options_and_credentials (p : RunProps) :
    (p.mountType = "nfs" → p.mountOptions = "" →
      mountCommandOf p =
        "mount -t nfs -o " ++ "rw,sync" ++ " " ++ p.mountSource ++ " " ++ p.mountPoint) ∧
    (p.mountType = "smb" → p.mountOptions = "" → p.mountUsername = "" →
      mountCommandOf p =
        "mount -t cifs -o " ++ "rw" ++ " " ++ p.mountSource ++ " " ++ p.mountPoint) ∧
    (p.mountType = "nfs" → ∀ u pw,
      mountCommandOf { p with mountUsername := u, mountPassword := pw } = mountCommandOf p) ∧
    (p.mountType = "smb" →
      mountCommandOf p =
        "mount -t cifs -o " ++
          ((if p.mountOptions = "" then "rw" else p.mountOptions) ++
            credSuffix p.mountUsername p.mountPassword) ++
          " " ++ p.mountSource ++ " " ++ p.mountPoint) := by
  refine ⟨?_, ?_, ?_, ?_⟩
  · intro h ho
    simp [mountCommandOf, h, nfsMountCommand, nfsOptions, ho]
  · intro h ho hu
    simp [mountCommandOf, h, smbMountCommand, smbOptions, ho, hu]
  · intro h u pw
    simp [mountCommandOf, h, nfsMountCommand]
  · intro h
    simp [mountCommandOf, h, smbMountCommand, smbOptions_eq]

/-- C8 witness at concrete NFS and SMB requests. -/
theorem c8_default_options_and_credentials_witness :
    mountCommandOf pEx8nfs =
      "mount -t nfs -o " ++ "rw,sync" ++ " " ++ pEx8nfs.mountSource ++ " " ++ pEx8nfs.mountPoint ∧
    mountCommandOf pEx8smb =
      "mount -t cifs -o " ++ "rw" ++ " " ++ pEx8smb.mountSource ++ " " ++ pEx8smb.mountPoint ∧
    mountCommandOf { pEx8nfs with mountUsername := "u", mountPassword := "p" } =
      mountCommandOf pEx8nfs :=
  ⟨(c8_default_options_and_credentials pEx8nfs).1 rfl rfl, (c8_default_options_and_credentials pEx8smb).2.1 rfl rfl rfl,
    (c8_default_options_and_credentials pEx8nfs).2.2.1 rfl "u" "p"⟩

/-- C9: for every SMB/CIFS mount request supplying a password but no
username, both credentials are silently omitted: the generated options equal
the base options alone, and the mount command contains neither `username=`
nor `password=` text (the password append lives inside the username branch). -/
theorem c9_password_without_username_omitted (opts pw src pt : String) :
    smbOptions opts "" pw = (if opts = "" then "rw" else opts) ∧
    smbMountCommand opts "" pw src pt =
      "mount -t cifs -o " ++ (if opts = "" then "rw" else opts) ++ " " ++ src ++ " " ++ pt := by
  have h : smbOptions opts "" pw = (if opts = "" then "rw" else opts) := by
    unfold smbOptions
    simp
  exact ⟨h, by unfold smbMountCommand; rw [h]⟩

/-- C3 witness at a concrete NFS request whose user script exits non-zero. -/
theorem c3_mount_script_ordering_witness :
    (pEx3.mountType = "nfs" ∨ pEx3.mountType = "smb") ∧ pEx3.mountSource ≠ "" ∧
    ((installPackagesOf pEx3 = nfsInstallPackages ∨ installPackagesOf pEx3 = smbInstallPackages) ∧
      (mountCommandOf pEx3 = nfsMountCommand pEx3.mountOptions pEx3.mountSource pEx3.mountPoint ∨
        mountCommandOf pEx3 =
          smbMountCommand pEx3.mountOptions pEx3.mountUsername pEx3.mountPassword
            pEx3.mountSource pEx3.mountPoint) ∧
      ∃ s1 s2 s3 s4, fullScript pEx3 =
        s1 ++ installPackagesOf pEx3 ++ s2 ++ mountCommandOf pEx3 ++ s3 ++
          cleanedCommand pEx3.command ++ s4 ++
          ("umount " ++ pEx3.mountPoint ++ " 2>/dev/null || true\n")) :=
  ⟨Or.inl rfl, by decide, c3_mount_script_ordering pEx3 (Or.inl rfl) (by decide)⟩

/-- C6 witness: a newline-terminated directive followed by a body that itself
contains a directive-like line (which stays in place). -/
theorem c6_newline_terminated_shebang_stripped_once_witness :
    (∀ c ∈ ("/bin/bash" : String).data, jsDotExcluded c = false) ∧
    (stripShebang ("#!" ++ "/bin/bash" ++ "\n" ++ "echo hi\n#!/bin/sh") = "echo hi\n#!/bin/sh" ∧
      cleanedCommand ("#!" ++ "/bin/bash" ++ "\n" ++ "echo hi\n#!/bin/sh") =
        jsTrim "echo hi\n#!/bin/sh") :=
  ⟨by decide,
    c6_newline_terminated_shebang_stripped_once "/bin/bash" "echo hi\n#!/bin/sh" (by decide)⟩

/-- C7 witness: two frames (one stdout, one stderr) delivered one per chunk,
and an unrecognized-tag chunk appended whole to stdout. -/
theorem c7_frame_per_chunk_demux_witness :
    (∀ f ∈ [(⟨1, [72]⟩ : DockerFrame), ⟨2, [69]⟩], f.tag = 1 ∨ f.tag = 2) ∧
    demux (List.map encodeFrame [(⟨1, [72]⟩ : DockerFrame), ⟨2, [69]⟩]) =
      (payloadsOf 1 [(⟨1, [72]⟩ : DockerFrame), ⟨2, [69]⟩],
        payloadsOf 2 [(⟨1, [72]⟩ : DockerFrame), ⟨2, [69]⟩]) ∧
    demuxChunk ([70], []) [9, 9] = ([70, 9, 9], []) :=
  ⟨by decide,
    (c7_frame_per_chunk_demux [(⟨1, [72]⟩ : DockerFrame), ⟨2, [69]⟩] (by decide)).1,
    (c7_frame_per_chunk_demux [(⟨1, [72]⟩ : DockerFrame), ⟨2, [69]⟩] (by decide)).2
      ([70], []) [9, 9] (by decide) (by decide)⟩

end BashRunner
